import Mathlib

/-!
Show-Sphere client script: a shallow embedding of `src/static/js/main.js`,
with theorems checking the specified behavior.

* `formatCurrency (amount) = '₹' + parseFloat(amount).toFixed(2)` — the
  function argument is a JS value (a number or a string), modelled by
  `JSValue`; JS numbers are modelled exactly as rationals `ℚ`, with the
  non-finite parse outcomes (`NaN`, `±Infinity`) carried explicitly by
  `JSNum`.  `parseFloat` is the ECMAScript string-to-number prefix parser
  (longest valid `StrDecimalLiteral` prefix, leading whitespace skipped,
  `NaN` when no prefix parses); `toFixed(2)` renders with exactly two
  digits after `'.'`, rounding the magnitude to the nearest hundredth
  with ties away from zero, per `Number.prototype.toFixed`.

* the `DOMContentLoaded` handler — the document state at trigger time is
  `Dom` (the elements matching `'.alert'` and the elements matching
  `'[data-bs-toggle="tooltip"]'`, each identified by a natural number, in
  document order as returned by `querySelectorAll`); the handler's effect
  is `onDOMContentLoaded`, producing the scheduled `setTimeout`
  registrations and the `tooltipList` of constructed `bootstrap.Tooltip`
  objects.

Model scope: JS numbers are idealized as exact rationals.  IEEE-754
binary64 effects — rounding of parsed literals to the nearest double,
overflow to an infinity beyond about `1.8e308`, and the `toFixed`
fallback to exponential `ToString` output for magnitudes of `10^21` and
above — are outside the model.  The theorems below are therefore stated
either at concrete inputs where the host double agrees with the exact
value's rendering, or as properties that hold of the host behavior as
well; no theorem asserts a universal two-decimal rendering or a universal
finiteness of parse results, both of which the host violates.
-/

/-- A JS value passed to `formatCurrency`: a (finite) number or a string. -/
inductive JSValue where
  | num (q : ℚ)
  | str (s : String)
deriving DecidableEq

/-- Outcome of JS string-to-number conversion: `NaN`, a signed infinity,
or a finite value (modelled exactly as a rational). -/
inductive JSNum where
  | nan
  | inf (neg : Bool)
  | fin (q : ℚ)
deriving DecidableEq

/-- ECMAScript `StrWhiteSpaceChar`: WhiteSpace (TAB, VT, FF, SP, NBSP,
ZWNBSP and the Unicode space separators) and LineTerminator (LF, CR, LS,
PS). -/
def jsWhitespace (c : Char) : Bool :=
  c == ' ' || c == '\t' || c == '\n' || c == '\r' || c == '\x0b' || c == '\x0c' ||
  c == '\u00A0' || c == '\uFEFF' || c == '\u1680' ||
  (decide ('\u2000' ≤ c) && decide (c ≤ '\u200A')) ||
  c == '\u2028' || c == '\u2029' || c == '\u202F' || c == '\u205F' || c == '\u3000'

/-- Value of a string of decimal digits, most significant first. -/
def digitsToNat (ds : List Char) : Nat :=
  ds.foldl (fun a c => 10 * a + (c.toNat - 48)) 0

/-- Digits of an exponent part (empty ⇒ 0, matching the longest-valid-prefix
rule: an `e` not followed by digits is not part of the parsed literal). -/
def expDigits (l : List Char) : Int :=
  (digitsToNat (l.takeWhile Char.isDigit) : Int)

/-- Signed digit sequence of an exponent part. -/
def parseSignedDigits (l : List Char) : Int :=
  match l with
  | '+' :: r => expDigits r
  | '-' :: r => - expDigits r
  | r => expDigits r

/-- Exponent denoted by an optional `ExponentPart` at the head of `l`
(0 when absent or malformed, since then it is not part of the literal). -/
def parseExponent (l : List Char) : Int :=
  match l with
  | 'e' :: r => parseSignedDigits r
  | 'E' :: r => parseSignedDigits r
  | _ => 0

/-- Scale a value by a power of ten. -/
def applyExp (q : ℚ) (e : Int) : ℚ :=
  if 0 ≤ e then q * (10 : ℚ) ^ e.toNat else q / (10 : ℚ) ^ (-e).toNat

/-- Longest `StrUnsignedDecimalLiteral` (without `Infinity`) prefix of `l`:
`Digits ['.' Digits] [Exponent]` or `'.' Digits [Exponent]`; `none` when no
such prefix exists. -/
def parseUnsigned (l : List Char) : Option ℚ :=
  let ds := l.takeWhile Char.isDigit
  let r1 := l.dropWhile Char.isDigit
  if ds.isEmpty then
    match r1 with
    | '.' :: r2 =>
      let fs := r2.takeWhile Char.isDigit
      if fs.isEmpty then none
      else
        let r3 := r2.dropWhile Char.isDigit
        some (applyExp ((digitsToNat fs : ℚ) / (10 : ℚ) ^ fs.length) (parseExponent r3))
    | _ => none
  else
    match r1 with
    | '.' :: r2 =>
      let fs := r2.takeWhile Char.isDigit
      let r3 := r2.dropWhile Char.isDigit
      some (applyExp ((digitsToNat ds : ℚ) + (digitsToNat fs : ℚ) / (10 : ℚ) ^ fs.length)
        (parseExponent r3))
    | _ => some (applyExp (digitsToNat ds : ℚ) (parseExponent r1))

/-- Strip an optional leading sign, returning (is-negative, remainder). -/
def stripSign (l : List Char) : Bool × List Char :=
  match l with
  | '-' :: r => (true, r)
  | '+' :: r => (false, r)
  | _ => (false, l)

/-- ECMAScript `parseFloat` on a string: skip leading whitespace, read an
optional sign, then the longest `StrUnsignedDecimalLiteral` (`Infinity` or a
decimal literal); `NaN` when none parses.  Trailing characters are ignored. -/
def parseFloatStr (s : String) : JSNum :=
  let l := s.toList.dropWhile jsWhitespace
  let sgn := stripSign l
  let neg := sgn.1
  let l2 := sgn.2
  if ("Infinity".toList).isPrefixOf l2 then JSNum.inf neg
  else
    match parseUnsigned l2 with
    | some q => JSNum.fin (if neg then -q else q)
    | none => JSNum.nan

/-- The builtin `parseFloat` applied to the `amount` argument: a string is
parsed with `parseFloatStr`; a (finite) number round-trips through
`ToString`, hence parses back to itself. -/
def parseFloat : JSValue → JSNum
  | JSValue.num q => JSNum.fin q
  | JSValue.str s => parseFloatStr s

/-- A natural number below 100 rendered as exactly two decimal digits. -/
def natPad2 (n : Nat) : String :=
  if n < 10 then "0" ++ toString n else toString n

/-- Rendering of `x.toFixed(2)` for a nonnegative value: the integer `n`
nearest to `100 * q` (ties toward the larger `n`), rendered as the digits
of `n / 100`, then `'.'`, then the two digits of `n % 100`. -/
def fixed2Pos (q : ℚ) : String :=
  let n := (⌊q * 100 + 1 / 2⌋).toNat
  toString (n / 100) ++ "." ++ natPad2 (n % 100)

/-- The builtin `Number.prototype.toFixed(2)`: `"NaN"` on `NaN`,
`"Infinity"` with sign on infinities, otherwise a leading `"-"` for
negative values followed by the magnitude rounded to two decimals. -/
def jsToFixed2 : JSNum → String
  | JSNum.nan => "NaN"
  | JSNum.inf neg => if neg then "-Infinity" else "Infinity"
  | JSNum.fin q => if q < 0 then "-" ++ fixed2Pos (-q) else fixed2Pos q

/-- The source function `formatCurrency`, whose body returns the glyph
`'₹'` concatenated with `parseFloat(amount).toFixed(2)`. -/
def formatCurrency (v : JSValue) : String :=
  "₹" ++ jsToFixed2 (parseFloat v)

/-- The document state at `DOMContentLoaded` time: the elements matching
`'.alert'` and the elements matching `'[data-bs-toggle="tooltip"]'`, each a
node identifier, in document order as returned by `querySelectorAll`
(which never repeats a node). -/
structure Dom where
  alerts : List Nat
  tooltipTriggerList : List Nat
deriving DecidableEq

/-- A `bootstrap.Tooltip` behavior object, recording the trigger element it
was constructed from. -/
structure Tooltip where
  element : Nat
deriving DecidableEq

/-- The page-level state the script creates: the pending `setTimeout`
registrations (element, delay in ms) and the `tooltipList` array. -/
structure PageState where
  timers : List (Nat × Nat)
  tooltipList : List Tooltip
deriving DecidableEq

/-- The delay passed to `setTimeout` for each alert. -/
def dismissDelayMs : Nat := 5000

/-- The `DOMContentLoaded` handler: for each element of `alerts` schedule one
`setTimeout` of 5000 ms closing that element; map `tooltipTriggerList` to
newly constructed `Tooltip` objects, collected in `tooltipList`. -/
def onDOMContentLoaded (dom : Dom) : PageState :=
  { timers := dom.alerts.map (fun a => (a, dismissDelayMs))
  , tooltipList := dom.tooltipTriggerList.map (fun el => Tooltip.mk el) }

/-- Absolute firing time of a `setTimeout` registration scheduled at `t0`. -/
def fireTime (t0 : Nat) (timer : Nat × Nat) : Nat := t0 + timer.2

/-- The handler is subscribed to `DOMContentLoaded`, a one-shot event: it
runs exactly once, on the document as it stands at trigger time; elements
added afterwards (`domAddedLater`) are never queried. -/
def runPage (domAtTrigger : Dom) (_domAddedLater : Dom) : PageState :=
  onDOMContentLoaded domAtTrigger

/-- A call to `formatCurrency` as a transition on the page state: the body
reads no state and writes no state (it uses only its argument and the pure
host builtins `parseFloat` and `toFixed`). -/
def formatCurrencyCall (st : PageState) (v : JSValue) : String × PageState :=
  (formatCurrency v, st)

/-- Is the first character of the list a decimal digit? -/
def headIsDigit : List Char → Bool
  | c :: _ => c.isDigit
  | [] => false

/-- Does the string, after whitespace and an optional sign, begin with a
decimal-number prefix (a digit, or `'.'` followed by a digit)? -/
def numericStart (s : String) : Bool :=
  match (stripSign (s.toList.dropWhile jsWhitespace)).2 with
  | c :: r => c.isDigit || (c == '.' && headIsDigit r)
  | [] => false

/-- Shape check: an optional `'-'`, one or more digits, `'.'`, exactly two
digits — a valid two-decimal numeric string. -/
def isTwoDecimalNumeric (s : String) : Bool :=
  let l :=
    match s.toList with
    | '-' :: r => r
    | r => r
  let ds := l.takeWhile Char.isDigit
  let r1 := l.dropWhile Char.isDigit
  !ds.isEmpty &&
    (match r1 with
     | ['.', d1, d2] => d1.isDigit && d2.isDigit
     | _ => false)

/-! ## Helper lemmas -/

theorem length_filter_map_eq_count {α : Type} (f : Nat → α) (g : α → Nat)
    (hg : ∀ x, g (f x) = x) (l : List Nat) (a : Nat) :
    ((l.map f).filter (fun t => g t == a)).length = l.count a := by
  induction l with
  | nil => simp
  | cons x xs ih =>
    by_cases h : x = a
    · subst h
      simp [List.filter_cons, hg, List.count_cons, ih]
    · simp [List.filter_cons, hg, List.count_cons, ih, h]

/-! ## Claim theorems -/

/-- C2: `formatCurrency` applied to 9.999 returns exactly `"₹10.00"`:
rounding at the second decimal place carries into the integer part. -/
theorem formatCurrency_rounds_up_to_ten :
    formatCurrency (JSValue.num (9999 / 1000)) = "₹10.00" := by
  simp +decide [formatCurrency, parseFloat, jsToFixed2, fixed2Pos, natPad2]
  norm_num
  decide

/-- C3: `formatCurrency` applied to the text `"42"` returns exactly
`"₹42.00"`: numeric text is parsed as a decimal number before formatting. -/
theorem formatCurrency_numeric_text :
    formatCurrency (JSValue.str "42") = "₹42.00" := by
  simp +decide [formatCurrency, parseFloat, parseFloatStr, parseUnsigned, parseExponent,
    parseSignedDigits, expDigits, digitsToNat, applyExp, jsWhitespace, stripSign, jsToFixed2,
    fixed2Pos, natPad2]
  norm_num
  decide

/-- C4: on the non-numeric input `"abc"`, `formatCurrency` raises no error
and returns `"₹NaN"`, the glyph followed by the host's not-a-number
sentinel; the part after the glyph holds no digit and is not a valid
two-decimal numeric string. -/
theorem formatCurrency_nonnumeric_sentinel :
    formatCurrency (JSValue.str "abc") = "₹" ++ "NaN" ∧
    (jsToFixed2 (parseFloat (JSValue.str "abc"))).toList.all (fun c => !c.isDigit) = true ∧
    isTwoDecimalNumeric (jsToFixed2 (parseFloat (JSValue.str "abc"))) = false := by
  refine ⟨?_, ?_, ?_⟩ <;>
    simp +decide [formatCurrency, parseFloat, parseFloatStr, parseUnsigned, jsWhitespace, stripSign,
      jsToFixed2, isTwoDecimalNumeric]

/-- C5: `formatCurrency` is deterministic and side-effect free: a call
returns the page state unchanged, and two calls with the same input — from
any two states — produce the identical output string. -/
theorem formatCurrency_deterministic_stateless (st st2 : PageState) (v : JSValue) :
    (formatCurrencyCall st v).2 = st ∧
    (formatCurrencyCall st v).1 = (formatCurrencyCall st2 v).1 :=
  ⟨rfl, rfl⟩

theorem formatCurrency_deterministic_stateless_witness :
    (formatCurrencyCall (PageState.mk [] []) (JSValue.str "1")).2 = PageState.mk [] [] ∧
    (formatCurrencyCall (PageState.mk [] []) (JSValue.str "1")).1 =
      (formatCurrencyCall (PageState.mk [(1, 5000)] []) (JSValue.str "1")).1 :=
  formatCurrency_deterministic_stateless (PageState.mk [] [])
    (PageState.mk [(1, 5000)] []) (JSValue.str "1")

/-- C6: every element matching the alert selector at trigger time has
exactly one dismissal scheduled for it, every scheduled dismissal carries
the fixed 5000 ms delay, and each fires once, no earlier than 5000 ms
after scheduling. -/
theorem alert_dismiss_schedule_unique (dom : Dom) (hnd : dom.alerts.Nodup)
    (a : Nat) (ha : a ∈ dom.alerts) (t0 : Nat) :
    (((onDOMContentLoaded dom).timers.filter (fun p => p.1 == a)).length = 1) ∧
    (∀ p ∈ (onDOMContentLoaded dom).timers, p.2 = 5000 ∧ t0 + 5000 ≤ fireTime t0 p) := by
  constructor
  · have h := length_filter_map_eq_count (fun x => (x, dismissDelayMs)) Prod.fst
      (fun _ => rfl) dom.alerts a
    simpa [onDOMContentLoaded, List.count_eq_one_of_mem hnd ha] using h
  · intro p hp
    simp only [onDOMContentLoaded, List.mem_map] at hp
    obtain ⟨x, _, rfl⟩ := hp
    exact ⟨rfl, le_refl _⟩

theorem alert_dismiss_schedule_unique_witness :
    ([1, 2] : List Nat).Nodup ∧ (1 : Nat) ∈ ([1, 2] : List Nat) ∧
    ((((onDOMContentLoaded (Dom.mk [1, 2] [])).timers.filter
        (fun p => p.1 == 1)).length = 1) ∧
      (∀ p ∈ (onDOMContentLoaded (Dom.mk [1, 2] [])).timers,
        p.2 = 5000 ∧ 0 + 5000 ≤ fireTime 0 p)) :=
  ⟨by decide, by decide,
    alert_dismiss_schedule_unique (Dom.mk [1, 2] []) (by decide) 1 (by decide) 0⟩

/-- C7: for each element carrying the tooltip marker at trigger time,
exactly one `Tooltip` is constructed and bound to it, and `tooltipList`
holds the handles in 1:1 correspondence and the same order as the queried
trigger elements. -/
theorem tooltip_one_to_one (dom : Dom) (hnd : dom.tooltipTriggerList.Nodup) :
    ((onDOMContentLoaded dom).tooltipList.map Tooltip.element = dom.tooltipTriggerList) ∧
    ((onDOMContentLoaded dom).tooltipList.length = dom.tooltipTriggerList.length) ∧
    (∀ a ∈ dom.tooltipTriggerList,
      (((onDOMContentLoaded dom).tooltipList.filter
        (fun t => t.element == a)).length = 1)) := by
  refine ⟨?_, ?_, ?_⟩
  · simp [onDOMContentLoaded, List.map_map, Function.comp_def]
  · simp [onDOMContentLoaded]
  · intro a ha
    have h := length_filter_map_eq_count Tooltip.mk Tooltip.element
      (fun _ => rfl) dom.tooltipTriggerList a
    simpa [onDOMContentLoaded, List.count_eq_one_of_mem hnd ha] using h

theorem tooltip_one_to_one_witness :
    ([3, 4] : List Nat).Nodup ∧
    (((onDOMContentLoaded (Dom.mk [] [3, 4])).tooltipList.map Tooltip.element
        = ([3, 4] : List Nat)) ∧
      ((onDOMContentLoaded (Dom.mk [] [3, 4])).tooltipList.length
        = ([3, 4] : List Nat).length) ∧
      (∀ a ∈ ([3, 4] : List Nat),
        (((onDOMContentLoaded (Dom.mk [] [3, 4])).tooltipList.filter
          (fun t => t.element == a)).length = 1))) :=
  ⟨by decide, tooltip_one_to_one (Dom.mk [] [3, 4]) (by decide)⟩

/-- C8: elements added to the page after the trigger has fired receive
neither a scheduled dismissal nor a tooltip: the handler runs once, on the
element sets queried at trigger time, so its result does not depend on the
later additions, and no element outside the trigger-time sets appears in a
timer or in `tooltipList`. -/
theorem post_trigger_no_behavior (dom added : Dom) (e : Nat)
    (hA : e ∉ dom.alerts) (hT : e ∉ dom.tooltipTriggerList) :
    (∀ added2 : Dom, runPage dom added2 = runPage dom added) ∧
    (∀ p ∈ (runPage dom added).timers, p.1 ≠ e) ∧
    (∀ t ∈ (runPage dom added).tooltipList, t.element ≠ e) := by
  refine ⟨fun _ => rfl, ?_, ?_⟩
  · intro p hp
    simp only [runPage, onDOMContentLoaded, List.mem_map] at hp
    obtain ⟨x, hx, rfl⟩ := hp
    intro hcontra
    have hxe : x = e := hcontra
    exact hA (hxe ▸ hx)
  · intro t ht
    simp only [runPage, onDOMContentLoaded, List.mem_map] at ht
    obtain ⟨x, hx, rfl⟩ := ht
    intro hcontra
    have hxe : x = e := hcontra
    exact hT (hxe ▸ hx)

theorem post_trigger_no_behavior_witness :
    (3 : Nat) ∉ ([1] : List Nat) ∧ (3 : Nat) ∉ ([2] : List Nat) ∧
    ((∀ added2 : Dom,
        runPage (Dom.mk [1] [2]) added2 = runPage (Dom.mk [1] [2]) (Dom.mk [3] [3])) ∧
      (∀ p ∈ (runPage (Dom.mk [1] [2]) (Dom.mk [3] [3])).timers, p.1 ≠ 3) ∧
      (∀ t ∈ (runPage (Dom.mk [1] [2]) (Dom.mk [3] [3])).tooltipList, t.element ≠ 3)) :=
  ⟨by decide, by decide,
    post_trigger_no_behavior (Dom.mk [1] [2]) (Dom.mk [3] [3]) 3 (by decide) (by decide)⟩

/-- C10: for every negative numeric input the minus sign is placed right
after the currency glyph — the glyph is unconditionally prepended to the
rendered value, sign included; in particular `formatCurrency(-5)` is
`"₹-5.00"`. -/
theorem negative_sign_after_glyph :
    (∀ q : ℚ, q < 0 →
      formatCurrency (JSValue.num q) = "₹" ++ ("-" ++ fixed2Pos (-q))) ∧
    formatCurrency (JSValue.num (-5)) = "₹-5.00" := by
  constructor
  · intro q hq
    simp [formatCurrency, parseFloat, jsToFixed2, if_pos hq]
  · simp +decide [formatCurrency, parseFloat, jsToFixed2, fixed2Pos, natPad2]
    norm_num
    decide

theorem negative_sign_after_glyph_witness :
    ((-3 : ℚ) < 0 ∧
      formatCurrency (JSValue.num (-3)) = "₹" ++ ("-" ++ fixed2Pos (-(-3)))) ∧
    formatCurrency (JSValue.num (-5)) = "₹-5.00" :=
  ⟨⟨by norm_num, negative_sign_after_glyph.1 (-3) (by norm_num)⟩,
    negative_sign_after_glyph.2⟩

/-! ## Parser-structure lemmas for the numeric-prefix claim -/

theorem beq_I_eq_false {c : Char} (h : c.isDigit = true) : ('I' == c) = false := by
  by_cases hc : c = 'I'
  · subst hc
    exact absurd h (by decide)
  · exact beq_eq_false_iff_ne.mpr fun he => hc he.symm

theorem infinity_not_prefix_of_digit_head (c : Char) (r : List Char)
    (h : c.isDigit = true) : (("Infinity".toList).isPrefixOf (c :: r)) = false := by
  have h1 : ("Infinity".toList).isPrefixOf (c :: r)
      = ('I' == c && ("nfinity".toList).isPrefixOf r) := rfl
  rw [h1, beq_I_eq_false h, Bool.false_and]

theorem infinity_not_prefix_of_dot_head (r : List Char) :
    (("Infinity".toList).isPrefixOf ('.' :: r)) = false := by
  have h1 : ("Infinity".toList).isPrefixOf ('.' :: r)
      = ('I' == '.' && ("nfinity".toList).isPrefixOf r) := rfl
  rw [h1]
  rw [show ('I' == '.') = false from by decide, Bool.false_and]

theorem parseUnsigned_isSome_of_digit_head (c : Char) (r : List Char)
    (h : c.isDigit = true) : (parseUnsigned (c :: r)).isSome = true := by
  simp only [parseUnsigned, List.takeWhile_cons_of_pos h, List.isEmpty_cons,
    Bool.false_eq_true, if_false]
  split <;> rfl

theorem parseUnsigned_isSome_of_dot_digit (c : Char) (r : List Char)
    (h : c.isDigit = true) : (parseUnsigned ('.' :: c :: r)).isSome = true := by
  have ht : List.takeWhile Char.isDigit ('.' :: c :: r) = [] := by
    simp +decide [List.takeWhile_cons]
  have hd2 : List.dropWhile Char.isDigit ('.' :: c :: r) = '.' :: c :: r := by
    simp +decide [List.dropWhile_cons]
  have ht2 : List.takeWhile Char.isDigit (c :: r) = c :: List.takeWhile Char.isDigit r := by
    simp [List.takeWhile_cons, h]
  simp only [parseUnsigned, ht, hd2, ht2, List.isEmpty_nil, if_true, List.isEmpty_cons,
    Bool.false_eq_true, if_false]
  rfl

theorem parseTail_fin (neg : Bool) (l2 : List Char)
    (h : (match l2 with
          | c :: r => c.isDigit || (c == '.' && headIsDigit r)
          | [] => false) = true) :
    ∃ q : ℚ,
      (if ("Infinity".toList).isPrefixOf l2 then JSNum.inf neg
       else
        match parseUnsigned l2 with
        | some q => JSNum.fin (if neg then -q else q)
        | none => JSNum.nan) = JSNum.fin q := by
  rcases l2 with _ | ⟨c, r⟩
  · exact absurd h (by decide)
  · have h2 : (c.isDigit || (c == '.' && headIsDigit r)) = true := h
    have h2' : c.isDigit = true ∨ (c = '.' ∧ headIsDigit r = true) := by
      simpa [Bool.and_eq_true, beq_iff_eq] using h2
    rcases h2' with hd | ⟨hc', hr⟩
    · obtain ⟨q0, hq0⟩ := Option.isSome_iff_exists.mp (parseUnsigned_isSome_of_digit_head c r hd)
      exact ⟨if neg then -q0 else q0,
        by rw [infinity_not_prefix_of_digit_head c r hd]; simp [hq0]⟩
    · subst hc'
      rcases r with _ | ⟨c2, r2⟩
      · exact absurd hr (by decide)
      · have h3 : c2.isDigit = true := hr
        obtain ⟨q0, hq0⟩ :=
          Option.isSome_iff_exists.mp (parseUnsigned_isSome_of_dot_digit c2 r2 h3)
        exact ⟨if neg then -q0 else q0,
          by rw [infinity_not_prefix_of_dot_head]; simp [hq0]⟩

theorem parseFloatStr_fin_of_numericStart (s : String) (h : numericStart s = true) :
    ∃ q : ℚ, parseFloatStr s = JSNum.fin q := by
  have h2 : (match (stripSign (s.toList.dropWhile jsWhitespace)).2 with
      | c :: r => c.isDigit || (c == '.' && headIsDigit r)
      | [] => false) = true := h
  exact parseTail_fin (stripSign (s.toList.dropWhile jsWhitespace)).1
    (stripSign (s.toList.dropWhile jsWhitespace)).2 h2

theorem dot_mem_fixed2Pos (q : ℚ) : '.' ∈ (fixed2Pos q).data := by
  simp only [fixed2Pos]
  rw [String.data_append, String.data_append]
  exact List.mem_append_left _ (List.mem_append_right _ (by decide))

theorem dot_mem_jsToFixed2_fin (q : ℚ) : '.' ∈ (jsToFixed2 (JSNum.fin q)).data := by
  by_cases hq : q < 0
  · simp only [jsToFixed2, if_pos hq]
    rw [String.data_append]
    exact List.mem_append_right _ (dot_mem_fixed2Pos _)
  · simp only [jsToFixed2, if_neg hq]
    exact dot_mem_fixed2Pos _

theorem formatCurrency_str_ne_sentinel_of_numericStart (s : String)
    (hs : numericStart s = true) : formatCurrency (JSValue.str s) ≠ "₹NaN" := by
  obtain ⟨q, hq⟩ := parseFloatStr_fin_of_numericStart s hs
  intro hsent
  have h1 : formatCurrency (JSValue.str s) = "₹" ++ jsToFixed2 (JSNum.fin q) := by
    simp [formatCurrency, parseFloat, hq]
  rw [h1] at hsent
  have h2 := congrArg String.data hsent
  rw [String.data_append] at h2
  rw [show ("₹".data) = ['₹'] from rfl] at h2
  rw [show ("₹NaN".data) = ['₹'] ++ ['N', 'a', 'N'] from rfl] at h2
  have h4 : (jsToFixed2 (JSNum.fin q)).data = ['N', 'a', 'N'] :=
    List.append_cancel_left h2
  have h5 := dot_mem_jsToFixed2_fin q
  rw [h4] at h5
  exact absurd h5 (by decide)

/-- C9: a text input whose leading prefix (after optional whitespace and
sign) starts a decimal number never produces the not-a-number sentinel:
its parse is not `NaN` and the output is not `"₹NaN"` (the host may still
overflow such a prefix to an infinity; no finiteness is asserted);
whenever the parse is a finite value, the output is that number's
currency string — in particular `"42abc"` gives `"₹42.00"` — and
conversely the sentinel output `"₹NaN"` arises only when no numeric
prefix exists at all. -/
theorem numeric_prefix_no_sentinel :
    formatCurrency (JSValue.str "42abc") = "₹42.00" ∧
    (∀ s : String, numericStart s = true →
      parseFloat (JSValue.str s) ≠ JSNum.nan ∧
      formatCurrency (JSValue.str s) ≠ "₹NaN") ∧
    (∀ (s : String) (q : ℚ), parseFloat (JSValue.str s) = JSNum.fin q →
      formatCurrency (JSValue.str s) = formatCurrency (JSValue.num q)) ∧
    (∀ s : String, formatCurrency (JSValue.str s) = "₹NaN" → numericStart s = false) := by
  refine ⟨?_, ?_, ?_, ?_⟩
  · simp +decide [formatCurrency, parseFloat, parseFloatStr, parseUnsigned, parseExponent,
      parseSignedDigits, expDigits, digitsToNat, applyExp, jsWhitespace, stripSign,
      jsToFixed2, fixed2Pos, natPad2]
    norm_num
    decide
  · intro s hs
    obtain ⟨q, hq⟩ := parseFloatStr_fin_of_numericStart s hs
    constructor
    · intro hcon
      have hcon' : parseFloatStr s = JSNum.nan := hcon
      rw [hq] at hcon'
      exact JSNum.noConfusion hcon'
    · exact formatCurrency_str_ne_sentinel_of_numericStart s hs
  · intro s q hq
    have hq' : parseFloatStr s = JSNum.fin q := hq
    simp [formatCurrency, parseFloat, hq']
  · intro s hsent
    cases h' : numericStart s
    · rfl
    · exact absurd hsent (formatCurrency_str_ne_sentinel_of_numericStart s h')

theorem numeric_prefix_no_sentinel_witness :
    numericStart "7" = true ∧
    (parseFloat (JSValue.str "7") ≠ JSNum.nan ∧
      formatCurrency (JSValue.str "7") ≠ "₹NaN") :=
  ⟨by decide, numeric_prefix_no_sentinel.2.1 "7" (by decide)⟩


/-! ## Sanity checks: the embedding on concrete inputs -/

example : formatCurrency (JSValue.num (9999 / 1000)) = "₹10.00" := by
  simp +decide [formatCurrency, parseFloat, jsToFixed2, fixed2Pos, natPad2]
  norm_num
  decide
example : formatCurrency (JSValue.str "42") = "₹42.00" := by
  simp +decide [formatCurrency, parseFloat, parseFloatStr, parseUnsigned, parseExponent,
    parseSignedDigits, expDigits, digitsToNat, applyExp, jsWhitespace, stripSign, jsToFixed2,
    fixed2Pos, natPad2]
  norm_num
  decide
example : formatCurrency (JSValue.str "abc") = "₹NaN" := by
  simp +decide [formatCurrency, parseFloat, parseFloatStr, parseUnsigned, jsWhitespace, stripSign,
    jsToFixed2]
example : formatCurrency (JSValue.str "42abc") = "₹42.00" := by
  simp +decide [formatCurrency, parseFloat, parseFloatStr, parseUnsigned, parseExponent,
    parseSignedDigits, expDigits, digitsToNat, applyExp, jsWhitespace, stripSign, jsToFixed2,
    fixed2Pos, natPad2]
  norm_num
  decide
example : formatCurrency (JSValue.num (-5)) = "₹-5.00" := by
  simp +decide [formatCurrency, parseFloat, jsToFixed2, fixed2Pos, natPad2]
  norm_num
  decide
example : formatCurrency (JSValue.num 0) = "₹0.00" := by
  simp +decide [formatCurrency, parseFloat, jsToFixed2, fixed2Pos, natPad2]
  norm_num
  decide
example : formatCurrency (JSValue.str " 1e3") = "₹1000.00" := by
  simp +decide [formatCurrency, parseFloat, parseFloatStr, parseUnsigned, parseExponent,
    parseSignedDigits, expDigits, digitsToNat, applyExp, jsWhitespace, stripSign, jsToFixed2,
    fixed2Pos, natPad2]
  norm_num
  decide
example : formatCurrency (JSValue.str "-Infinity") = "₹-Infinity" := by
  simp +decide [formatCurrency, parseFloat, parseFloatStr, jsWhitespace, stripSign, jsToFixed2]
example : formatCurrency (JSValue.str ".5") = "₹0.50" := by
  simp +decide [formatCurrency, parseFloat, parseFloatStr, parseUnsigned, parseExponent,
    parseSignedDigits, expDigits, digitsToNat, applyExp, jsWhitespace, stripSign, jsToFixed2,
    fixed2Pos, natPad2]
  norm_num
  decide
example : formatCurrency (JSValue.str ".") = "₹NaN" := by
  simp +decide [formatCurrency, parseFloat, parseFloatStr, parseUnsigned, jsWhitespace, stripSign,
    jsToFixed2]
example : formatCurrency (JSValue.str "2.5e-1") = "₹0.25" := by
  simp +decide [formatCurrency, parseFloat, parseFloatStr, parseUnsigned, parseExponent,
    parseSignedDigits, expDigits, digitsToNat, applyExp, jsWhitespace, stripSign, jsToFixed2,
    fixed2Pos, natPad2]
  norm_num
  decide
example : formatCurrency (JSValue.num (-1 / 1000)) = "₹-0.00" := by
  simp +decide [formatCurrency, parseFloat, jsToFixed2, fixed2Pos, natPad2]
  norm_num
  decide
example : isTwoDecimalNumeric "42.00" = true := by decide
example : isTwoDecimalNumeric "NaN" = false := by decide
example : isTwoDecimalNumeric "-5.00" = true := by decide
